import Mathlib

/-!
Shallow embedding of the LlamaEdge query server (`src/main.rs`,
`src/backend/mod.rs`, `src/backend/requests.rs`, `src/search/mod.rs`).

JSON values are modelled by the inductive `JVal`; `serde_json`'s `get`
(returning `Option`) and `Index` (returning `Null` on absence) become
`jget` and `jindex`.  The external chat-completion service and the
provider HTTP calls are oracles passed to the handler; the handler
records its outbound calls in a list of `Effect`s.  Rust panics
(out-of-bounds indexing, `unwrap` on `None`) are modelled by a distinct
`Outcome.panic` / `ConsultOutcome.panic` result.
-/

/-- JSON values as manipulated via `serde_json::Value` in the source.
Numbers carry an `Int`; `as_u64` succeeds exactly on integers in `u64`
range, mirroring `Value::as_u64`. -/
inductive JVal where
  | null : JVal
  | bool : Bool → JVal
  | num : Int → JVal
  | str : String → JVal
  | arr : List JVal → JVal
  | obj : List (String × JVal) → JVal

/-- `serde_json::Value::get` on an object: `None` when the key is absent
or the value is not an object. -/
def jget : JVal → String → Option JVal
  | .obj fields, k => fields.lookup k
  | _, _ => none

/-- `serde_json::Value::index` (`value["k"]`): yields `Null` when the key
is absent or the value is not an object. -/
def jindex (v : JVal) (k : String) : JVal :=
  (jget v k).getD .null

/-- `Value::as_str`. -/
def JVal.as_str : JVal → Option String
  | .str s => some s
  | _ => none

/-- `Value::as_bool`. -/
def JVal.as_bool : JVal → Option Bool
  | .bool b => some b
  | _ => none

/-- The largest `u64` value, `u64::MAX`. -/
def u64_MAX : Nat := 2 ^ 64 - 1

/-- `Value::as_u64`: some natural number iff the value is an integer in
`u64` range. -/
def JVal.as_u64 : JVal → Option Nat
  | .num n => if 0 ≤ n ∧ n ≤ (u64_MAX : Int) then some n.toNat else none
  | _ => none

/-- `Value::is_null`. -/
def JVal.is_null : JVal → Bool
  | .null => true
  | _ => false

/-- Rust `as u8` narrowing cast. -/
def toU8 (n : Nat) : Nat := n % 256

/-- Rust `as u16` narrowing cast. -/
def toU16 (n : Nat) : Nat := n % 65536

/-! ### Chat-completion data (crate `endpoints`, shapes used by `consult`) -/

/-- The function part of a tool call in a completion response.
`arguments` is a wire string parsed with `serde_json::from_str`; the
external parse is modelled by carrying its result: `none` stands for a
string that fails to deserialize. -/
structure ToolCallFunction where
  name : String
  arguments : Option JVal

/-- A tool call of a completion response (`ToolCall` in `endpoints`). -/
structure ToolCall where
  ty : String
  function : ToolCallFunction

/-- The assistant message of a completion choice, with its tool calls. -/
structure CompletionMessage where
  tool_calls : List ToolCall

/-- One choice of a `ChatCompletionObject`. -/
structure CompletionChoice where
  message : CompletionMessage

/-- The non-streaming chat completion object returned by
`llama_core::chat::chat`. -/
structure ChatCompletionObject where
  choices : List CompletionChoice

/-- Outcome of the single `llama_core::chat::chat` call that `consult`
issues: a hard failure (`Err`), a streaming answer (`Either::Left`), or
a completion object (`Either::Right`). -/
inductive ChatOutcome where
  | failure : String → ChatOutcome
  | streaming : ChatOutcome
  | completion : ChatCompletionObject → ChatOutcome

/-- The response from the LLM, cleaned (`ConsultResponse` in
`src/backend/requests.rs`). -/
structure ConsultResponse where
  decision : Bool
  query : Option String

/-- Result of `consult`: a returned error (`ServerError::ConsulationError`),
a Rust panic, or a validated verdict. -/
inductive ConsultOutcome where
  | err : String → ConsultOutcome
  | panic : ConsultOutcome
  | ok : ConsultResponse → ConsultOutcome

/-- `consult` from `src/backend/requests.rs` (lines 427-583): validates
the tool call of the completion response and builds a `ConsultResponse`.
The message/tool construction sent to the completion service does not
affect the result; the single completion-service call is the `chat`
argument.  `consultation_result.choices[0].message.tool_calls[0]` is
unchecked indexing in the source: an empty list is a panic, not an
error.  Likewise `arguments["query"].as_str().unwrap()` panics when
`query` is non-null but not a string. -/
def consult (chat : ChatOutcome) : ConsultOutcome :=
  match chat with
  | .failure e => .err e
  | .streaming => .err "streaming mode is unsupported"
  | .completion consultation_result =>
    match consultation_result.choices.get? 0 with
    | none => .panic
    | some choice =>
      match choice.message.tool_calls.get? 0 with
      | none => .panic
      | some tool_call =>
        if tool_call.ty ≠ "function" ∨ tool_call.function.name ≠ "search_required" then
          .err "Invalid tool call response"
        else
          match tool_call.function.arguments with
          | none => .err "Could not deserialize tool call arguments"
          | some arguments =>
            match (jindex arguments "search_required").as_bool with
            | none => .err "Invalid argument type: search_required"
            | some b =>
              if b ∧ (jindex arguments "query").is_null then
                .err "invalid argument: 'query' cannot be null"
              else if b then
                match (jindex arguments "query").as_str with
                | none => .panic
                | some s => .ok ⟨b, some s⟩
              else
                .ok ⟨b, none⟩

/-! ### Search backends (`src/search/mod.rs`) -/

/-- `SearchBackends` from `src/search/mod.rs`.  The enum in that file
declares only `Tavily`, `Bing`, `Unknown`; `src/backend/requests.rs`
additionally matches on a `LocalSearchServer` variant, so the embedding
carries all four constructors. -/
inductive SearchBackends where
  | Tavily : SearchBackends
  | Bing : SearchBackends
  | LocalSearchServer : SearchBackends
  | Unknown : SearchBackends
deriving DecidableEq

/-- `impl From<String> for SearchBackends` (`src/search/mod.rs` lines
12-19): only `"tavily"` and `"bing"` are recognized; every other string,
including `"local_search_server"`, maps to `Unknown`. -/
def SearchBackends.fromString (search_backend : String) : SearchBackends :=
  if search_backend = "tavily" then .Tavily
  else if search_backend = "bing" then .Bing
  else .Unknown

/-! ### Server configuration (`src/main.rs`) -/

/-- The CLI fields of `src/main.rs` that `query_handler` reads.
`max_search_results` is a `u8` ("Fallback: Maximum search results to be
enforced in case a user query goes overboard"), `size_per_search_result`
a `u16`, `server` the restricted deployment-mode flag. -/
structure Cli where
  model_name : String
  max_search_results : Nat
  size_per_search_result : Nat
  server : Bool

/-- In the Tavily arm the source clamps with `.min(u8::max as u64)` and
`.min(u16::max as u64)`: casts of the fn items `Ord::max` to `u64`,
which yield the functions' machine addresses — unspecified values, not
`u8::MAX` / `u16::MAX`.  They are modelled as unconstrained parameters. -/
structure RustEnv where
  u8_max_addr : Nat
  u16_max_addr : Nat

/-! ### Search configuration (`llama_core::search`, populated in
`src/backend/requests.rs`) -/

/-- `ContentType` of `llama_core::search`; only `JSON` is used. -/
inductive ContentType where
  | JSON : ContentType
deriving DecidableEq

/-- The provider result-page parser referenced by a `SearchConfig`
(a function pointer in the source; parsing internals are external). -/
inductive ResultParser where
  | tavilyParseFn : ResultParser
  | bingParseFn : ResultParser
deriving DecidableEq

/-- `SearchConfig` of `llama_core::search`, as populated by
`query_handler`. -/
structure SearchConfig where
  search_engine : String
  max_search_results : Nat
  size_limit_per_result : Nat
  endpoint : String
  content_type : ContentType
  output_content_type : ContentType
  method : String
  additional_headers : Option (List (String × String))
  parser : ResultParser
  summarization_prompts : Option String
  summarize_ctx_size : Option Nat

/-- `TavilySearchInput` (`llama_core::search::tavily_search`), fields as
set in `src/backend/requests.rs`. -/
structure TavilySearchInput where
  api_key : String
  include_answer : Bool
  include_images : Bool
  query : String
  max_results : Nat
  include_raw_content : Bool
  search_depth : String

/-- `BingSearchInput` (`llama_core::search::bing_search`). -/
structure BingSearchInput where
  count : Nat
  q : String
  responseFilter : String

/-- `LocalGoogleSearchInput` (`llama_core::search::local_google_search`). -/
structure LocalGoogleSearchInput where
  term : String
  engine : String
  maxSearchResults : Nat

/-- The provider-specific payload handed to `perform_search` /
`summarize_search`. -/
inductive SearchInputShape where
  | tavily : TavilySearchInput → SearchInputShape
  | bing : BingSearchInput → SearchInputShape
  | localGoogle : LocalGoogleSearchInput → SearchInputShape

/-! ### HTTP responses and effects -/

/-- A response body: plain diagnostic text (error helpers) or the JSON
value serialized by `serde_json::json!{..}.to_string()` on the success
path. -/
inductive RespBody where
  | text : String → RespBody
  | json : JVal → RespBody

/-- Outcome of handling one request: an HTTP response with a status
code, or a Rust panic. -/
inductive Outcome where
  | response : Nat → RespBody → Outcome
  | panic : Outcome

/-- The status code of an outcome, when it is a response. -/
def Outcome.status : Outcome → Option Nat
  | .response s _ => some s
  | .panic => none

/-- Outbound network calls the handler performs, in order: the
completion-service call inside `consult`, and the provider call of
`perform_search` / `summarize_search`. -/
inductive Effect where
  | chatCall : Effect
  | searchCall : String → SearchInputShape → Effect
  | summarizeCall : String → SearchInputShape → Effect

/-- Modelled from the spec: `src/error.rs` is declared in `src/main.rs`
but absent from the sources.  Per the spec's error-handling design,
`error::bad_request` produces a client-error response, HTTP 400, with a
plain-text diagnostic body. -/
def bad_request (msg : String) : Outcome :=
  .response 400 (.text msg)

/-- Modelled from the spec: `src/error.rs` is absent from the sources.
Per the spec's error-handling design, `error::internal_server_error`
produces a server-error response, HTTP 500, with a plain-text
diagnostic body. -/
def internal_server_error (msg : String) : Outcome :=
  .response 500 (.text msg)

/-- Modelled from the spec: `src/error.rs` is absent from the sources.
Per the spec, `error::not_implemented` produces HTTP 501 for an
unrecognized route. -/
def not_implemented : Outcome :=
  .response 501 (.text "501 Not Implemented")

/-! ### Building the per-request `SearchConfig`
(`src/backend/requests.rs` lines 63-160) -/

/-- QueryType from `src/backend/mod.rs`. -/
inductive QueryType where
  | Decision : QueryType
  | Complete : QueryType
  | Summarize : QueryType
deriving DecidableEq

/-- The `let search_config = match search_backend { .. }` block of
`query_handler` (lines 63-160).  Early `return`s of the source become
`Except.error` carrying the response.  Note the asymmetries of the
source: the Tavily arm indexes the fields and clamps against the fn-item
addresses `u8::max as u64` / `u16::max as u64`; the Bing and
local-search arms substitute `u64::MAX` for an absent field (so the CLI
fallback applies only to present non-`u64` values) and clamp against
`u8::MAX` / `u16::MAX`; the local arm `unwrap`s the endpoint string
(panic on a non-string endpoint). -/
def build_search_config (search_backend : SearchBackends)
    (request_search_config : JVal) (cli : Cli) (env : RustEnv) :
    Except Outcome SearchConfig :=
  match search_backend with
  | .Tavily => .ok {
      search_engine := "tavily"
      max_search_results :=
        toU8 (min ((jindex request_search_config "max_search_results").as_u64.getD
          cli.max_search_results) env.u8_max_addr)
      size_limit_per_result :=
        toU16 (min ((jindex request_search_config "size_limit_per_result").as_u64.getD
          cli.size_per_search_result) env.u16_max_addr)
      endpoint := "https://api.tavily.com/search"
      content_type := .JSON
      output_content_type := .JSON
      method := "POST"
      additional_headers := none
      parser := .tavilyParseFn
      summarization_prompts := none
      summarize_ctx_size := none }
  | .Bing =>
    match jget request_search_config "api_key" with
    | none => .error (bad_request "no Bing API key supplied.\n")
    | some api_key =>
      match api_key.as_str with
      | none => .error (internal_server_error "invalid Bing API key supplied.\n")
      | some key => .ok {
          search_engine := "bing"
          max_search_results :=
            toU8 (min (((jget request_search_config "max_search_results").getD
              (JVal.num (u64_MAX : Int))).as_u64.getD cli.max_search_results) 255)
          size_limit_per_result :=
            toU16 (min (((jget request_search_config "size_limit_per_result").getD
              (JVal.num (u64_MAX : Int))).as_u64.getD cli.size_per_search_result) 65535)
          endpoint := "https://api.bing.microsoft.com/v7.0/search"
          content_type := .JSON
          output_content_type := .JSON
          method := "GET"
          additional_headers := some [("Ocp-Apim-Subscription-Key", key)]
          parser := .bingParseFn
          summarization_prompts := none
          summarize_ctx_size := none }
  | .LocalSearchServer =>
    match ((jget request_search_config "endpoint").getD
        (JVal.str "https://localhost:3000/search")).as_str with
    | none => .error .panic
    | some ep => .ok {
        search_engine := "google"
        max_search_results :=
          toU8 (min (((jget request_search_config "max_search_results").getD
            (JVal.num (u64_MAX : Int))).as_u64.getD cli.max_search_results) 255)
        size_limit_per_result :=
          toU16 (min (((jget request_search_config "size_limit_per_result").getD
            (JVal.num (u64_MAX : Int))).as_u64.getD cli.size_per_search_result) 65535)
        endpoint := ep
        content_type := .JSON
        output_content_type := .JSON
        method := "POST"
        additional_headers := none
        parser := .bingParseFn
        summarization_prompts := none
        summarize_ctx_size := none }
  | .Unknown =>
    .error (bad_request "Unknown backend mentioned.\nUsage: tavily, bing, local_search_server.\n")

/-- A 200 response whose body is the serialization of a JSON value. -/
def ok_json (v : JVal) : Outcome :=
  .response 200 (.json v)

/-- The request body as seen by `query_handler`: a failure of
`hyper::body::to_bytes`, a `serde_json::from_slice` parse failure, or
the parsed JSON value. -/
inductive ReqBody where
  | bytesError : String → ReqBody
  | parseError : String → ReqBody
  | json : JVal → ReqBody

/-- `query_handler` from the `SearchConfig` construction onwards
(`src/backend/requests.rs` lines 63-422): build the config, extract the
query, consult the LLM, and assemble the response for the requested
`QueryType`.  `searchRes` is the oracle outcome of
`SearchConfig::perform_search` (the normalized results as a JSON value)
and `summarizeRes` of `SearchConfig::summarize_search`; the second
component records the outbound calls in order. -/
def query_handler_core (bytes_json request_search_config : JVal)
    (search_backend : SearchBackends) (cli : Cli) (query_type : QueryType)
    (env : RustEnv) (chat : ChatOutcome) (searchRes : Except String JVal)
    (summarizeRes : Except String String) : Outcome × List Effect :=
  match build_search_config search_backend request_search_config cli env with
  | .error out => (out, [])
  | .ok search_config =>
    match jget bytes_json "query" with
    | none => (bad_request "No query received.\n", [])
    | some qv =>
      match qv.as_str with
      | none => (internal_server_error "The query supplied is not a String.\n", [])
      | some _query =>
        match consult chat with
        | .panic => (Outcome.panic, [Effect.chatCall])
        | .err _ =>
            (internal_server_error "Error while generating response from LLM.\n",
             [Effect.chatCall])
        | .ok consultation_response =>
          match query_type with
          | .Decision =>
              (ok_json (.obj [("decision", .bool consultation_response.decision),
                 ("query", .str (consultation_response.query.getD "null"))]),
               [Effect.chatCall])
          | .Complete =>
            let computed_query := consultation_response.query.getD ""
            if consultation_response.decision = false then
              (ok_json (.obj [("decision", .bool consultation_response.decision),
                 ("query", .str (consultation_response.query.getD "null"))]),
               [Effect.chatCall])
            else
              match search_backend with
              | .Tavily =>
                match jget request_search_config "api_key" with
                | none =>
                    (internal_server_error "no Tavily API key supplied.\n", [Effect.chatCall])
                | some api_key =>
                  match api_key.as_str with
                  | none => (bad_request "Invalid Tavily API key supplied.\n", [Effect.chatCall])
                  | some key =>
                    let search_input := SearchInputShape.tavily {
                      api_key := key
                      include_answer := false
                      include_images := false
                      query := computed_query
                      max_results := search_config.max_search_results
                      include_raw_content := false
                      search_depth := "advanced" }
                    match searchRes with
                    | .ok results =>
                        (ok_json (.obj [("decision", .bool consultation_response.decision),
                           ("results", results)]),
                         [Effect.chatCall,
                          Effect.searchCall search_config.search_engine search_input])
                    | .error e =>
                        (internal_server_error ("Failed to perform internet search: " ++ e),
                         [Effect.chatCall,
                          Effect.searchCall search_config.search_engine search_input])
              | .Bing =>
                let search_input := SearchInputShape.bing {
                  count := search_config.max_search_results
                  q := computed_query
                  responseFilter := "Webpages" }
                match searchRes with
                | .ok results =>
                    (ok_json (.obj [("decision", .bool consultation_response.decision),
                       ("results", results)]),
                     [Effect.chatCall,
                      Effect.searchCall search_config.search_engine search_input])
                | .error e =>
                    (internal_server_error ("Failed to perform internet search: " ++ e),
                     [Effect.chatCall,
                      Effect.searchCall search_config.search_engine search_input])
              | .LocalSearchServer =>
                let search_input := SearchInputShape.localGoogle {
                  term := computed_query
                  engine := "google"
                  maxSearchResults := search_config.max_search_results }
                match searchRes with
                | .ok results =>
                    (ok_json (.obj [("decision", .bool consultation_response.decision),
                       ("results", results)]),
                     [Effect.chatCall,
                      Effect.searchCall search_config.search_engine search_input])
                | .error e =>
                    (internal_server_error ("Failed to perform internet search: " ++ e),
                     [Effect.chatCall,
                      Effect.searchCall search_config.search_engine search_input])
              | .Unknown =>
                  (bad_request "Unknown backend mentioned.\nUsage: tavily, bing, local_search_server\n",
                   [Effect.chatCall])
          | .Summarize =>
            let computed_query := consultation_response.query.getD ""
            if consultation_response.decision = false then
              (ok_json (.obj [("decision", .bool consultation_response.decision),
                 ("results", .str (consultation_response.query.getD "null"))]),
               [Effect.chatCall])
            else
              match search_backend with
              | .Tavily =>
                match jget request_search_config "api_key" with
                | none =>
                    (internal_server_error "No Tavily API key supplied\n", [Effect.chatCall])
                | some api_key =>
                  match api_key.as_str with
                  | none => (bad_request "Invalid Tavily API key supplied.\n", [Effect.chatCall])
                  | some key =>
                    let search_input := SearchInputShape.tavily {
                      api_key := key
                      include_answer := false
                      include_images := false
                      query := computed_query
                      max_results := search_config.max_search_results
                      include_raw_content := false
                      search_depth := "advanced" }
                    match summarizeRes with
                    | .ok summary =>
                        (ok_json (.obj [("decision", .bool consultation_response.decision),
                           ("results", .str summary)]),
                         [Effect.chatCall,
                          Effect.summarizeCall search_config.search_engine search_input])
                    | .error e =>
                        (internal_server_error ("Failed to perform internet search: " ++ e),
                         [Effect.chatCall,
                          Effect.summarizeCall search_config.search_engine search_input])
              | .Bing =>
                let search_input := SearchInputShape.bing {
                  count := search_config.max_search_results
                  q := computed_query
                  responseFilter := "Webpages" }
                match summarizeRes with
                | .ok summary =>
                    (ok_json (.obj [("decision", .bool consultation_response.decision),
                       ("results", .str summary)]),
                     [Effect.chatCall,
                      Effect.summarizeCall search_config.search_engine search_input])
                | .error e =>
                    (internal_server_error ("Failed to perform internet search: " ++ e),
                     [Effect.chatCall,
                      Effect.summarizeCall search_config.search_engine search_input])
              | .LocalSearchServer =>
                let search_input := SearchInputShape.localGoogle {
                  term := computed_query
                  engine := "google"
                  maxSearchResults := search_config.max_search_results }
                match summarizeRes with
                | .ok summary =>
                    (ok_json (.obj [("decision", .bool consultation_response.decision),
                       ("results", .str summary)]),
                     [Effect.chatCall,
                      Effect.summarizeCall search_config.search_engine search_input])
                | .error e =>
                    (internal_server_error ("Failed to perform internet search: " ++ e),
                     [Effect.chatCall,
                      Effect.summarizeCall search_config.search_engine search_input])
              | .Unknown =>
                  (bad_request "unknown backend mentioned.\nUsage: tavily, bing, local_search_server",
                   [Effect.chatCall])

/-- `query_handler` (`src/backend/requests.rs` lines 8-422): decode the
body, require the `search_config` object, derive the backend from the
`backend` string, apply the restricted-mode (`--server`) checks, then
continue with `query_handler_core`. -/
def query_handler (req : ReqBody) (cli : Cli) (query_type : QueryType)
    (env : RustEnv) (chat : ChatOutcome) (searchRes : Except String JVal)
    (summarizeRes : Except String String) : Outcome × List Effect :=
  match req with
  | .bytesError e =>
      (internal_server_error ("Error while converting request body into bytes: " ++ e ++ "\n"), [])
  | .parseError e =>
      (internal_server_error ("Error while converting request body into json object: " ++ e), [])
  | .json bytes_json =>
    match jget bytes_json "search_config" with
    | none =>
        (internal_server_error "Unable to extract search_config object from request.\n", [])
    | some request_search_config =>
      let search_backend :=
        SearchBackends.fromString ((jindex bytes_json "backend").as_str.getD "")
      if cli.server = true ∧ search_backend = SearchBackends.LocalSearchServer then
        (bad_request "The \"backend local_search_server\" is only allowed on servers configured without --server.\n",
         [])
      else if cli.server = true ∧ query_type = QueryType.Summarize then
        (bad_request "Summary generation endpoint is only available on servers configured without --server.\n",
         [])
      else
        query_handler_core bytes_json request_search_config search_backend cli
          query_type env chat searchRes summarizeRes

/-- `handle_query_request` from `src/backend/mod.rs`: routes the three
query endpoints to `query_handler` with the matching `QueryType`. -/
def handle_query_request (path : String) (req : ReqBody) (cli : Cli)
    (env : RustEnv) (chat : ChatOutcome) (searchRes : Except String JVal)
    (summarizeRes : Except String String) : Outcome × List Effect :=
  if path = "/query/decide" then
    query_handler req cli .Decision env chat searchRes summarizeRes
  else if path = "/query/complete" then
    query_handler req cli .Complete env chat searchRes summarizeRes
  else if path = "/query/summarize" then
    query_handler req cli .Summarize env chat searchRes summarizeRes
  else
    (not_implemented, [])

/-! ### Concrete fixtures used by the theorems -/

/-- A server configuration: model `default`, `--max-search-results 5`
(the CLI default), `--size-per-search-result 400`, unrestricted. -/
def cli5 : Cli := ⟨"default", 5, 400, false⟩

/-- The same server configuration with the restricted-mode `--server`
flag set. -/
def cliRestricted : Cli := ⟨"default", 5, 400, true⟩

/-- Sample machine addresses for the fn items `u8::max` / `u16::max`. -/
def env0 : RustEnv := ⟨94321, 94567⟩

/-- A conforming completion response whose tool call carries
`search_required = false`. -/
def chatFalse : ChatOutcome :=
  .completion ⟨[⟨⟨[⟨"function",
    ⟨"search_required", some (.obj [("search_required", .bool false)])⟩⟩]⟩⟩]⟩

/-- A conforming completion response whose tool call carries
`search_required = true` with a search query. -/
def chatTrue : ChatOutcome :=
  .completion ⟨[⟨⟨[⟨"function",
    ⟨"search_required",
     some (.obj [("search_required", .bool true), ("query", .str "weather in Paris")])⟩⟩]⟩⟩]⟩

/-- A structurally non-conforming completion response: the tool call
names a function other than `search_required`. -/
def chatWrongName : ChatOutcome :=
  .completion ⟨[⟨⟨[⟨"function",
    ⟨"wrong_name", some (.obj [("search_required", .bool false)])⟩⟩]⟩⟩]⟩

/-- A structurally non-conforming completion response: the
`search_required` argument is a string, not a boolean. -/
def chatNonBool : ChatOutcome :=
  .completion ⟨[⟨⟨[⟨"function",
    ⟨"search_required", some (.obj [("search_required", .str "yes")])⟩⟩]⟩⟩]⟩

/-- A completion response with no choices at all. -/
def chatNoChoices : ChatOutcome := .completion ⟨[]⟩

/-- A completion response whose only choice carries no tool calls. -/
def chatNoToolCalls : ChatOutcome := .completion ⟨[⟨⟨[]⟩⟩]⟩

/-- A well-formed request body: Tavily backend, empty `search_config`
(in particular: no `api_key`). -/
def bjTav : JVal :=
  .obj [("query", .str "What is 2+2?"), ("backend", .str "tavily"), ("search_config", .obj [])]

/-- A Tavily request whose `search_config.api_key` is a number, not a
string. -/
def bjTavBadKey : JVal :=
  .obj [("query", .str "What is 2+2?"), ("backend", .str "tavily"),
        ("search_config", .obj [("api_key", .num 1)])]

/-- A well-formed request selecting the `local_search_server` backend. -/
def bjLocal : JVal :=
  .obj [("query", .str "hi"), ("backend", .str "local_search_server"),
        ("search_config", .obj [])]

/-- A well-formed request with an unrecognized backend string. -/
def bjFoo : JVal :=
  .obj [("query", .str "hi"), ("backend", .str "foo"), ("search_config", .obj [])]

/-! ### Helper lemmas -/

/-- `From<String>` never yields `LocalSearchServer`: no string is mapped
to that variant by `src/search/mod.rs`. -/
theorem fromString_ne_local (s : String) :
    SearchBackends.fromString s ≠ SearchBackends.LocalSearchServer := by
  unfold SearchBackends.fromString
  split_ifs <;> simp

/-- Under a present `search_config` and outside the restricted-mode
rejections, `query_handler` continues with `query_handler_core`. -/
theorem qh_to_core
    (bytes_json rsc : JVal) (cli : Cli) (qt : QueryType) (env : RustEnv)
    (chat : ChatOutcome) (sr : Except String JVal) (zr : Except String String)
    (hsc : jget bytes_json "search_config" = some rsc)
    (hs2 : ¬(cli.server = true ∧ qt = QueryType.Summarize)) :
    query_handler (.json bytes_json) cli qt env chat sr zr =
      query_handler_core bytes_json rsc
        (SearchBackends.fromString ((jindex bytes_json "backend").as_str.getD ""))
        cli qt env chat sr zr := by
  have h1 : ¬(cli.server = true ∧
      SearchBackends.fromString ((jindex bytes_json "backend").as_str.getD "") =
        SearchBackends.LocalSearchServer) := fun h => fromString_ne_local _ h.2
  unfold query_handler
  simp only [hsc, if_neg h1, if_neg hs2]

/-- A validated verdict with `decision = false` carries no query:
`consult` only populates `query` when `search_required` is `true`. -/
theorem consult_false_query_none (chat : ChatOutcome) (r : ConsultResponse)
    (h : consult chat = .ok r) (hd : r.decision = false) : r.query = none := by
  obtain ⟨d, q⟩ := r
  unfold consult at h
  repeat' split at h
  all_goals simp_all

/-! ### Claim theorems -/

/-- C1: the claim says the constructed config's numeric fields never
exceed the server ceilings.  In the code the CLI values are only
`unwrap_or` defaults: with `--max-search-results 5`, a Bing request
asking for 200 results yields a config with `max_search_results = 200`
(clamped only at `u8::MAX`), and a Bing request that omits the field
yields 255 (the `u64::MAX` placeholder clamped at `u8::MAX`), both above
the ceiling 5. -/
theorem C1_ceiling_exceeded_at_bing :
    (build_search_config .Bing (.obj [("api_key", .str "k"), ("max_search_results", .num 200)])
        cli5 env0).map SearchConfig.max_search_results = .ok 200 ∧
    (build_search_config .Bing (.obj [("api_key", .str "k")])
        cli5 env0).map SearchConfig.max_search_results = .ok 255 ∧
    cli5.max_search_results = 5 :=
  ⟨rfl, rfl, rfl⟩

/-- C4: on a Complete-mode Tavily request that needs a search, a
`search_config` without `api_key` is answered by
`error::internal_server_error` (HTTP 500), not 400 as the claim states,
with body `"no Tavily API key supplied.\n"`; a key of the wrong
(non-string) type is the distinct response 400
`"Invalid Tavily API key supplied.\n"`. -/
theorem C4_missing_tavily_key_is_500 :
    query_handler (.json bjTav) cli5 .Complete env0 chatTrue (.error "x") (.error "x") =
      (internal_server_error "no Tavily API key supplied.\n", [Effect.chatCall]) ∧
    query_handler (.json bjTavBadKey) cli5 .Complete env0 chatTrue (.error "x") (.error "x") =
      (bad_request "Invalid Tavily API key supplied.\n", [Effect.chatCall]) :=
  ⟨rfl, rfl⟩

/-- C5: `From<String> for SearchBackends` has no arm for
`"local_search_server"`, so the string maps to `Unknown`, and even
outside restricted mode a request selecting it is rejected with the
unknown-backend 400 before any dispatch — contradicting the claim, the
`LocalSearchServer` match arms of `query_handler`, and the usage text of
the error message itself. -/
theorem C5_local_search_server_rejected :
    SearchBackends.fromString "local_search_server" = SearchBackends.Unknown ∧
    query_handler (.json bjLocal) cli5 .Complete env0 chatTrue (.error "x") (.error "x") =
      (bad_request "Unknown backend mentioned.\nUsage: tavily, bing, local_search_server.\n", []) :=
  ⟨rfl, rfl⟩

/-- C7: `consult` indexes `choices[0]` and `tool_calls[0]` without any
emptiness check: a completion response with no choices, or whose first
choice has no tool calls, makes the access fault (Rust panic) instead of
being treated as a classification failure; at the handler level the
request dies with a panic after the one completion call. -/
theorem C7_unchecked_indexing_panics :
    consult chatNoChoices = .panic ∧
    consult chatNoToolCalls = .panic ∧
    query_handler (.json bjTav) cli5 .Decision env0 chatNoChoices (.error "x") (.error "x") =
      (Outcome.panic, [Effect.chatCall]) :=
  ⟨rfl, rfl, rfl⟩

/-- C8: a JSON body with no `search_config` object is answered by
`error::internal_server_error` — HTTP 500, not the claimed 400 — with
body `"Unable to extract search_config object from request.\n"`. -/
theorem C8_missing_search_config_500 :
    query_handler (.json (.obj [("query", .str "hi"), ("backend", .str "tavily")]))
        cli5 .Decision env0 chatFalse (.error "x") (.error "x") =
      (internal_server_error "Unable to extract search_config object from request.\n", []) :=
  rfl

/-- C2 counterexample: a structurally non-conforming completion response
(tool call named `wrong_name`) is a classification error that IS
surfaced to the HTTP caller as a 500 response, after a single completion
call; nothing is retried, contradicting the claim. -/
theorem C2_structural_failure_surfaced :
    consult chatWrongName = .err "Invalid tool call response" ∧
    query_handler (.json bjTav) cli5 .Complete env0 chatWrongName (.error "x") (.error "x") =
      (internal_server_error "Error while generating response from LLM.\n", [Effect.chatCall]) :=
  ⟨rfl, rfl⟩

/-- C2 amended: for every request reaching the consultation stage, any
`consult` failure — structural tool-call non-conformance as well as a
hard completion-service failure — surfaces to the HTTP caller as 500
`"Error while generating response from LLM.\n"`, and exactly one
completion-service call is made (effect trace `[chatCall]`): there is no
retry. -/
theorem C2_consult_error_surfaces_500
    (bytes_json rsc : JVal) (cfg : SearchConfig) (cli : Cli) (qt : QueryType)
    (env : RustEnv) (chat : ChatOutcome) (sr : Except String JVal)
    (zr : Except String String) (q m : String)
    (hsc : jget bytes_json "search_config" = some rsc)
    (hs2 : ¬(cli.server = true ∧ qt = QueryType.Summarize))
    (hmk : build_search_config
      (SearchBackends.fromString ((jindex bytes_json "backend").as_str.getD ""))
      rsc cli env = .ok cfg)
    (hq : jget bytes_json "query" = some (JVal.str q))
    (hcons : consult chat = .err m) :
    query_handler (.json bytes_json) cli qt env chat sr zr =
      (internal_server_error "Error while generating response from LLM.\n", [Effect.chatCall]) := by
  rw [qh_to_core bytes_json rsc cli qt env chat sr zr hsc hs2]
  unfold query_handler_core
  rw [hmk]
  simp only [hq, JVal.as_str, hcons]

/-- C2 witness: the amended statement at a concrete non-conforming
response (non-boolean `search_required` argument). -/
theorem C2_consult_error_surfaces_500_witness :
    query_handler (.json bjTav) cli5 .Decision env0 chatNonBool (.error "x") (.error "x") =
      (internal_server_error "Error while generating response from LLM.\n", [Effect.chatCall]) :=
  C2_consult_error_surfaces_500 bjTav (.obj []) _ cli5 .Decision env0 chatNonBool
    (.error "x") (.error "x") "What is 2+2?" "Invalid argument type: search_required"
    rfl (by decide) rfl rfl rfl

/-- C3 counterexample: a Complete-mode request with `needs_search=false`
is answered with `{"decision":false,"query":"null"}` — the `query` field
is the four-character string `"null"`, not JSON `null` as the claim
states. -/
theorem C3_complete_query_is_null_string :
    (query_handler (.json bjTav) cli5 .Complete env0 chatFalse (.error "x") (.error "x")).1 =
      ok_json (.obj [("decision", .bool false), ("query", .str "null")]) ∧
    (query_handler (.json bjTav) cli5 .Complete env0 chatFalse (.error "x") (.error "x")).1 ≠
      ok_json (.obj [("decision", .bool false), ("query", JVal.null)]) := by
  have h : (query_handler (.json bjTav) cli5 .Complete env0 chatFalse (.error "x") (.error "x")).1 =
      ok_json (.obj [("decision", .bool false), ("query", .str "null")]) := rfl
  refine ⟨h, ?_⟩
  rw [h]
  simp [ok_json]

/-- C3 amended: for every Complete-mode request with
`needs_search=false` the body is `{"decision":false,"query":"null"}`
(string `"null"`), and for every Summarize-mode request it is
`{"decision":false,"results":"null"}` (key `results`, string `"null"`);
in both cases no provider call occurs (effect trace `[chatCall]`). -/
theorem C3_no_search_response_body
    (bytes_json rsc : JVal) (cfg : SearchConfig) (cli : Cli) (qt : QueryType)
    (env : RustEnv) (chat : ChatOutcome) (sr : Except String JVal)
    (zr : Except String String) (q : String) (r : ConsultResponse)
    (hsc : jget bytes_json "search_config" = some rsc)
    (hserver : cli.server = false)
    (hqt : qt = QueryType.Complete ∨ qt = QueryType.Summarize)
    (hmk : build_search_config
      (SearchBackends.fromString ((jindex bytes_json "backend").as_str.getD ""))
      rsc cli env = .ok cfg)
    (hq : jget bytes_json "query" = some (JVal.str q))
    (hcons : consult chat = .ok r) (hdec : r.decision = false) :
    query_handler (.json bytes_json) cli qt env chat sr zr =
      (ok_json (.obj [("decision", .bool false),
        (if qt = QueryType.Complete then "query" else "results", .str "null")]),
       [Effect.chatCall]) := by
  have hqn := consult_false_query_none chat r hcons hdec
  have hs2 : ¬(cli.server = true ∧ qt = QueryType.Summarize) := by
    rw [hserver]; rintro ⟨hh, -⟩; exact Bool.noConfusion hh
  rw [qh_to_core bytes_json rsc cli qt env chat sr zr hsc hs2]
  unfold query_handler_core
  rw [hmk]
  rcases hqt with h | h <;> subst h <;>
    simp [hq, JVal.as_str, hcons, hdec, hqn]

/-- C3 witness: the amended statement at a concrete Complete-mode
request with a `false` verdict. -/
theorem C3_no_search_response_body_witness :
    query_handler (.json bjTav) cli5 .Complete env0 chatFalse (.error "x") (.error "x") =
      (ok_json (.obj [("decision", .bool false), ("query", .str "null")]), [Effect.chatCall]) := by
  have h := C3_no_search_response_body bjTav (.obj []) _ cli5 .Complete env0 chatFalse
    (.error "x") (.error "x") "What is 2+2?" ⟨false, none⟩ rfl rfl (Or.inl rfl) rfl rfl rfl rfl
  simpa using h

/-- C6 counterexample: a request whose backend string is `"foo"` but
whose body lacks `search_config` is answered 500, not 400: the
missing-`search_config` check precedes backend validation. -/
theorem C6_missing_search_config_precedes :
    query_handler (.json (.obj [("query", .str "hi"), ("backend", .str "foo")]))
        cli5 .Decision env0 chatFalse (.error "x") (.error "x") =
      (internal_server_error "Unable to extract search_config object from request.\n", []) ∧
    (query_handler (.json (.obj [("query", .str "hi"), ("backend", .str "foo")]))
        cli5 .Decision env0 chatFalse (.error "x") (.error "x")).1.status = some 500 :=
  ⟨rfl, rfl⟩

/-- C6 amended: for every request whose JSON body contains
`search_config` and which is not rejected earlier by the restricted-mode
Summarize check, a backend string outside {tavily, bing,
local_search_server} yields 400 with body `"Unknown backend
mentioned.\nUsage: tavily, bing, local_search_server.\n"` and no network
call occurs (empty effect trace). -/
theorem C6_unknown_backend_400
    (bytes_json rsc : JVal) (cli : Cli) (qt : QueryType) (env : RustEnv)
    (chat : ChatOutcome) (sr : Except String JVal) (zr : Except String String) (s : String)
    (hsc : jget bytes_json "search_config" = some rsc)
    (hbs : (jindex bytes_json "backend").as_str.getD "" = s)
    (h1 : s ≠ "tavily") (h2 : s ≠ "bing") (_h3 : s ≠ "local_search_server")
    (hs2 : ¬(cli.server = true ∧ qt = QueryType.Summarize)) :
    query_handler (.json bytes_json) cli qt env chat sr zr =
      (bad_request "Unknown backend mentioned.\nUsage: tavily, bing, local_search_server.\n", []) := by
  have hu : SearchBackends.fromString ((jindex bytes_json "backend").as_str.getD "") =
      SearchBackends.Unknown := by
    rw [hbs]; unfold SearchBackends.fromString; rw [if_neg h1, if_neg h2]
  rw [qh_to_core bytes_json rsc cli qt env chat sr zr hsc hs2, hu]
  rfl

/-- C6 witness: the amended statement at backend `"foo"`. -/
theorem C6_unknown_backend_400_witness :
    query_handler (.json bjFoo) cli5 .Decision env0 chatFalse (.error "x") (.error "x") =
      (bad_request "Unknown backend mentioned.\nUsage: tavily, bing, local_search_server.\n", []) :=
  C6_unknown_backend_400 bjFoo (.obj []) cli5 .Decision env0 chatFalse (.error "x") (.error "x")
    "foo" rfl rfl (by decide) (by decide) (by decide) (by decide)

/-- C9 counterexample: under restricted mode, a Summarize request whose
body lacks `search_config` is answered 500, not 400: the claim's
"independent of the other fields" fails because body decoding and the
`search_config` check precede the restricted-mode check. -/
theorem C9_summarize_restricted_not_always_400 :
    (query_handler (.json (.obj [("query", .str "hi"), ("backend", .str "bing")]))
        cliRestricted .Summarize env0 chatFalse (.error "x") (.error "x")).1.status = some 500 :=
  rfl

/-- C9 amended: under restricted mode (`--server`), every Summarize-mode
request and every request selecting the `local_search_server` backend
whose JSON body contains `search_config` is answered with status 400
(for `local_search_server` via the unknown-backend rejection, since
`From<String>` never produces the `LocalSearchServer` variant),
independent of the remaining fields, with no network call. -/
theorem C9_restricted_mode_400
    (bytes_json rsc : JVal) (cli : Cli) (qt : QueryType) (env : RustEnv)
    (chat : ChatOutcome) (sr : Except String JVal) (zr : Except String String)
    (hsrv : cli.server = true)
    (hsc : jget bytes_json "search_config" = some rsc)
    (hcase : qt = QueryType.Summarize ∨
      (jindex bytes_json "backend").as_str.getD "" = "local_search_server") :
    (query_handler (.json bytes_json) cli qt env chat sr zr).1.status = some 400 ∧
    (query_handler (.json bytes_json) cli qt env chat sr zr).2 = [] := by
  have hnl : ¬(cli.server = true ∧
      SearchBackends.fromString ((jindex bytes_json "backend").as_str.getD "") =
        SearchBackends.LocalSearchServer) := fun h => fromString_ne_local _ h.2
  by_cases hqt : qt = QueryType.Summarize
  · unfold query_handler
    simp only [hsc, if_neg hnl, if_pos (And.intro hsrv hqt)]
    trivial
  · rcases hcase with h | h
    · exact absurd h hqt
    · have hu : SearchBackends.fromString ((jindex bytes_json "backend").as_str.getD "") =
          SearchBackends.Unknown := by rw [h]; decide
      have hs2 : ¬(cli.server = true ∧ qt = QueryType.Summarize) := fun hh => hqt hh.2
      rw [qh_to_core bytes_json rsc cli qt env chat sr zr hsc hs2, hu]
      exact ⟨rfl, rfl⟩

/-- C9 witness: the amended statement at a concrete restricted-mode
Summarize request. -/
theorem C9_restricted_mode_400_witness :
    (query_handler (.json bjTav) cliRestricted .Summarize env0 chatFalse
        (.error "x") (.error "x")).1.status = some 400 ∧
    (query_handler (.json bjTav) cliRestricted .Summarize env0 chatFalse
        (.error "x") (.error "x")).2 = [] :=
  C9_restricted_mode_400 bjTav (.obj []) cliRestricted .Summarize env0 chatFalse
    (.error "x") (.error "x") rfl rfl (Or.inl rfl)

/-- C10: for every Decision-mode request whose consultation verdict has
`needs_search=false` — hence, by `consult`'s construction, no search
query — the body is `{"decision":false,"query":"null"}` with the
`query` field the four-character string `"null"`, exactly as claimed. -/
theorem C10_decision_false_query_null_string
    (bytes_json rsc : JVal) (cfg : SearchConfig) (cli : Cli)
    (env : RustEnv) (chat : ChatOutcome) (sr : Except String JVal)
    (zr : Except String String) (q : String) (r : ConsultResponse)
    (hsc : jget bytes_json "search_config" = some rsc)
    (hmk : build_search_config
      (SearchBackends.fromString ((jindex bytes_json "backend").as_str.getD ""))
      rsc cli env = .ok cfg)
    (hq : jget bytes_json "query" = some (JVal.str q))
    (hcons : consult chat = .ok r) (hdec : r.decision = false) :
    query_handler (.json bytes_json) cli .Decision env chat sr zr =
      (ok_json (.obj [("decision", .bool false), ("query", .str "null")]), [Effect.chatCall]) := by
  have hqn := consult_false_query_none chat r hcons hdec
  have hs2 : ¬(cli.server = true ∧ QueryType.Decision = QueryType.Summarize) :=
    fun h => QueryType.noConfusion h.2
  rw [qh_to_core bytes_json rsc cli .Decision env chat sr zr hsc hs2]
  unfold query_handler_core
  rw [hmk]
  simp [hq, JVal.as_str, hcons, hdec, hqn]

/-- C10 witness: the claim at the spec's own example request. -/
theorem C10_decision_false_query_null_string_witness :
    query_handler (.json bjTav) cli5 .Decision env0 chatFalse (.error "x") (.error "x") =
      (ok_json (.obj [("decision", .bool false), ("query", .str "null")]), [Effect.chatCall]) :=
  C10_decision_false_query_null_string bjTav (.obj []) _ cli5 env0 chatFalse
    (.error "x") (.error "x") "What is 2+2?" ⟨false, none⟩ rfl rfl rfl rfl rfl
